import Mathlib

/-!
# Verification of the Bindu protocol-client core

Shallow embedding of the task-continuity, state-classification, polling,
transport-header and stream-reconstruction logic of the Bindu chat client,
together with theorems settling the specification claims about it.

Sources embedded:
* `frontend/src/lib/types/agent.ts`        — namespace `Agent`
* `frontend/src/lib/stores/chat.ts`        — namespace `Chat`
* the A2A protocol types module            — namespace `Bindu` (types)
* the Bindu endpoint adapter               — namespace `Bindu` (headers, continuity, polling)
* the direct agent message handler         — namespace `Handler`
* the response-to-stream converter         — namespace `Stream`

JavaScript strings are modelled as Lean `String` (code points; all inputs of
interest live in the BMP, where JS code-unit indexing and code-point indexing
agree).  JavaScript `undefined`/optional fields are `Option`; JS truthiness of
a string is the test against `""`; thrown exceptions are `Except`/sum results.
-/

/-- JS string truthiness for an optional string: `undefined`/`null` and `""`
are falsy, every other string is truthy. -/
def strOptTruthy : Option String → Bool
  | none => false
  | some s => s ≠ ""

/-- The set of characters removed by JavaScript `String.prototype.trim`:
ECMA-262 WhiteSpace (TAB, VT, FF, SP, NBSP, ZWNBSP and Unicode Zs) together
with LineTerminator (LF, CR, LS, PS). -/
def jsWhitespaceChar (c : Char) : Bool :=
  c.toNat = 0x9 ∨ c.toNat = 0xA ∨ c.toNat = 0xB ∨ c.toNat = 0xC ∨ c.toNat = 0xD ∨
  c.toNat = 0x20 ∨ c.toNat = 0xA0 ∨ c.toNat = 0x1680 ∨
  (0x2000 ≤ c.toNat ∧ c.toNat ≤ 0x200A) ∨
  c.toNat = 0x2028 ∨ c.toNat = 0x2029 ∨ c.toNat = 0x202F ∨ c.toNat = 0x205F ∨
  c.toNat = 0x3000 ∨ c.toNat = 0xFEFF

/-- JavaScript `s.trim()`: strip leading and trailing JS whitespace. -/
def jsTrim (s : String) : String :=
  String.mk (((s.data.dropWhile jsWhitespaceChar).reverse.dropWhile jsWhitespaceChar).reverse)

/-- JavaScript `s.slice(n)` (single argument, `0 ≤ n`): drop the first `n`
characters; yields `""` when `n` exceeds the length. -/
def jsSlice (s : String) (n : Nat) : String :=
  String.mk (s.data.drop n)

/-- The regular expression `^[\x00-\x7F]*$` used by the endpoint adapter:
every character of the string is in the ASCII range. -/
def asciiOnly (s : String) : Bool :=
  s.data.all (fun c => c.toNat ≤ 0x7F)

namespace Agent

/-- `TaskState` of `frontend/src/lib/types/agent.ts` (closed 8-value union,
including `rejected`). -/
inductive TaskState where
  | submitted
  | working
  | inputRequired
  | authRequired
  | completed
  | failed
  | canceled
  | rejected
deriving DecidableEq, Repr, Fintype

/-- `isTerminalState` of `agent.ts`:
`['completed', 'failed', 'canceled', 'rejected'].includes(state)`. -/
def isTerminalState (state : TaskState) : Bool :=
  [TaskState.completed, TaskState.failed, TaskState.canceled, TaskState.rejected].contains state

/-- `isNonTerminalState` of `agent.ts`:
`['input-required', 'auth-required'].includes(state)`. -/
def isNonTerminalState (state : TaskState) : Bool :=
  [TaskState.inputRequired, TaskState.authRequired].contains state

end Agent

namespace Chat

open Agent

/-- The continuity-resolution block of `sendMessage` in
`frontend/src/lib/stores/chat.ts`: given a freshly generated UUID, the
reply-target override, the current task state and the current task id, produce
the task id to submit with and the `referenceTaskIds` list.

```
if (replyTo) { taskId = generateUUID(); referenceTaskIds.push(replyTo); }
else if (currentState && isNonTerminalState(currentState) && currentTask) { taskId = currentTask; }
else if (currentTask) { taskId = generateUUID(); referenceTaskIds.push(currentTask); }
else { taskId = generateUUID(); }
```
-/
def sendMessageContinuity (freshId : String) (replyTo : Option String)
    (currentState : Option TaskState) (currentTask : Option String) :
    String × List String :=
  if strOptTruthy replyTo then
    (freshId, [replyTo.getD ""])
  else if currentState.isSome ∧ isNonTerminalState (currentState.getD .submitted)
      ∧ strOptTruthy currentTask then
    (currentTask.getD "", [])
  else if strOptTruthy currentTask then
    (freshId, [currentTask.getD ""])
  else
    (freshId, [])

end Chat

namespace Bindu

/-- `TaskState` of the A2A protocol types module (closed 8-value union,
including `unknown`, without `rejected`). -/
inductive TaskState where
  | submitted
  | working
  | inputRequired
  | authRequired
  | completed
  | canceled
  | failed
  | unknown
deriving DecidableEq, Repr, Fintype

/-- `TERMINAL_STATES` of the types module:
`["completed", "failed", "canceled"]`. -/
def TERMINAL_STATES : List TaskState :=
  [TaskState.completed, TaskState.failed, TaskState.canceled]

/-- `NON_TERMINAL_STATES` of the types module:
`["input-required", "auth-required"]`. -/
def NON_TERMINAL_STATES : List TaskState :=
  [TaskState.inputRequired, TaskState.authRequired]

/-- `WORKING_STATES` of the types module: `["submitted", "working"]`. -/
def WORKING_STATES : List TaskState :=
  [TaskState.submitted, TaskState.working]

/-- `buildHeaders` of the endpoint adapter.  The returned association list is
the `headers` record in insertion order: `Content-Type` always, then
`Authorization: Bearer <apiKey>` when `apiKey` is truthy, then `X-PAYMENT`
with the trimmed payment token when the payment token is truthy and its
trimmed form passes the `^[\x00-\x7F]*$` test.  An absent optional
`paymentToken` behaves as `""`. -/
def buildHeaders (apiKey : String) (paymentToken : String) : List (String × String) :=
  let headers := [("Content-Type", "application/json")]
  let headers := if apiKey ≠ "" then headers ++ [("Authorization", "Bearer " ++ apiKey)]
    else headers
  if paymentToken ≠ "" then
    let cleanToken := jsTrim paymentToken
    if asciiOnly cleanToken then headers ++ [("X-PAYMENT", cleanToken)]
    else headers
  else headers

/-- `determineTaskIdAndReferences` of the endpoint adapter, with the UUID the
code would generate passed in as `freshId`.  Returns the task id together with
the optional `referenceTaskIds` field. -/
def determineTaskIdAndReferences (freshId : String) (lastTaskId : Option String)
    (lastTaskState : Option TaskState) : String × Option (List String) :=
  let isNonTerminalState :=
    lastTaskState.isSome ∧ NON_TERMINAL_STATES.contains (lastTaskState.getD .unknown)
  if isNonTerminalState ∧ strOptTruthy lastTaskId then
    (lastTaskId.getD "", none)
  else if strOptTruthy lastTaskId then
    (freshId, some [lastTaskId.getD ""])
  else
    (freshId, none)

/-- A task as observed by the endpoint adapter's polling loop: the state, the
metadata keys the failure path reads, and the optional status message used as
a last-resort error detail (modelled by its presence). -/
structure Task where
  id : String
  state : TaskState
  metadataError : Option String
  metadataErrorMessage : Option String
  statusMessage : Option String
deriving DecidableEq, Repr

/-- `task.metadata?.error || task.metadata?.error_message || task.status?.message
|| "Task failed"` — the error detail attached to a failed task.  A status
message object is truthy whenever present; its display form is its text. -/
def failedErrorDetail (t : Task) : String :=
  match t.metadataError with
  | some e => if e ≠ "" then e else fallbackA t
  | none => fallbackA t
where
  fallbackA (t : Task) : String :=
    match t.metadataErrorMessage with
    | some e => if e ≠ "" then e else fallbackB t
    | none => fallbackB t
  fallbackB (t : Task) : String :=
    match t.statusMessage with
    | some m => m
    | none => "Task failed"

/-- What the polling loop does with one successfully fetched task. -/
inductive PollDecision where
  | ret                      -- return the task to the caller (stop polling)
  | fail (detail : String)   -- throw "Task failed: <detail>"
  | cancel                   -- throw "Task was canceled"
  | cont                     -- keep polling
deriving DecidableEq, Repr

/-- The four kinds of polling decision, with the failure detail erased (used
to state that the kind of decision depends only on the task's state). -/
inductive DecisionKind where
  | ret
  | fail
  | cancel
  | cont
deriving DecidableEq, Repr

/-- Erase a decision's payload, keeping its kind. -/
def PollDecision.kind : PollDecision → DecisionKind
  | .ret => .ret
  | .fail _ => .fail
  | .cancel => .cancel
  | .cont => .cont

/-- The per-task branch of the endpoint adapter's polling loop:

```
if (TERMINAL_STATES.includes(taskState)) {
  if (taskState === "completed" || taskState === "input-required") return ...;
  else if (taskState === "failed") throw ...;
  else if (taskState === "canceled") throw ...;
}
else if (NON_TERMINAL_STATES.includes(taskState)) return ...;
// otherwise fall through and continue polling
```
-/
def pollStep (t : Task) : PollDecision :=
  let taskState := t.state
  if TERMINAL_STATES.contains taskState then
    if taskState = .completed ∨ taskState = .inputRequired then .ret
    else if taskState = .failed then .fail (failedErrorDetail t)
    else if taskState = .canceled then .cancel
    else .cont
  else if NON_TERMINAL_STATES.contains taskState then .ret
  else .cont

/-- The shape of one `tasks/get` round trip, as the loop body distinguishes
them: a non-2xx response (`continue`), a 2xx body whose JSON-RPC `error`
field is set (throw), a 2xx body without a usable task (`continue`), or a
task. -/
inductive PollResp where
  | fetchFail
  | rpcError (msg : String)
  | noTask
  | task (t : Task)
deriving DecidableEq, Repr

/-- Errors the polling phase can throw. -/
inductive PollError where
  | rpcError (msg : String)
  | taskFailed (detail : String)
  | taskCanceled
  | timeout
deriving DecidableEq, Repr

/-- `pollInterval` of the endpoint adapter (milliseconds). -/
def pollInterval : Nat := 1000

/-- `maxAttempts` of the endpoint adapter. -/
def maxAttempts : Nat := 300

/-- The polling loop from attempt number `attempt` with `remaining` loop
iterations left.  `resps i` is the outcome of the `tasks/get` round trip of
attempt `i`.  Besides the result, the model records, for each attempt
actually performed, the wait (in ms) executed before its fetch: `0` for
attempt 0, `pollInterval` for every later attempt — mirroring
`if (attempt > 0) await setTimeout(pollInterval)`.  Running out of
iterations throws the poll-timeout error. -/
def pollLoopFrom (resps : Nat → PollResp) (attempt : Nat) :
    Nat → Except PollError Task × List Nat
  | 0 => (.error .timeout, [])
  | remaining + 1 =>
    let wait := if attempt > 0 then pollInterval else 0
    match resps attempt with
    | .fetchFail =>
      let r := pollLoopFrom resps (attempt + 1) remaining
      (r.1, wait :: r.2)
    | .rpcError msg => (.error (.rpcError msg), [wait])
    | .noTask =>
      let r := pollLoopFrom resps (attempt + 1) remaining
      (r.1, wait :: r.2)
    | .task t =>
      match pollStep t with
      | .ret => (.ok t, [wait])
      | .fail d => (.error (.taskFailed d), [wait])
      | .cancel => (.error .taskCanceled, [wait])
      | .cont =>
        let r := pollLoopFrom resps (attempt + 1) remaining
        (r.1, wait :: r.2)

/-- The polling phase of `endpointBindu` with a configurable attempt budget:
attempt 0 fires immediately, the loop runs at most `budget` attempts. -/
def pollLoop (resps : Nat → PollResp) (budget : Nat) : Except PollError Task × List Nat :=
  pollLoopFrom resps 0 budget

/-- Responses on which one loop iteration neither returns nor throws: a
swallowed transient failure (non-2xx response, or a 2xx body without a usable
task) or a task whose state is in the Working group. -/
def continuesPolling (r : PollResp) : Bool :=
  match r with
  | .fetchFail => true
  | .noTask => true
  | .rpcError _ => false
  | .task t => WORKING_STATES.contains t.state

/-- The `message/send` round trip as the submit phase distinguishes it:
HTTP status, optional JSON-RPC error message, optional task in `result`. -/
structure SendResp where
  status : Nat
  rpcError : Option String
  task : Option Task
deriving DecidableEq, Repr

/-- `response.ok` of `fetch`: status in the 2xx range. -/
def respOk (status : Nat) : Bool := 200 ≤ status ∧ status ≤ 299

/-- Errors `endpointBindu` can throw. -/
inductive EndpointError where
  | authRequired
  | paymentRequired
  | sendFailed (status : Nat)
  | rpcError (msg : String)
  | noTask
  | poll (e : PollError)
deriving DecidableEq, Repr

/-- The submit-then-poll pipeline of `endpointBindu`: classify the
`message/send` response (401 first, then 402, then any other non-2xx, then a
JSON-RPC error, then a missing/id-less task), and only on success enter the
polling loop.  The second component counts the `tasks/get` attempts actually
performed (0 whenever submission fails). -/
def endpointBindu (send : SendResp) (resps : Nat → PollResp) :
    Except EndpointError Task × Nat :=
  if send.status = 401 then (.error .authRequired, 0)
  else if send.status = 402 then (.error .paymentRequired, 0)
  else if ¬ respOk send.status then (.error (.sendFailed send.status), 0)
  else
    match send.rpcError with
    | some msg => (.error (.rpcError msg), 0)
    | none =>
      match send.task with
      | none => (.error .noTask, 0)
      | some t =>
        if t.id = "" then (.error .noTask, 0)
        else
          let r := pollLoop resps maxAttempts
          (r.1.mapError .poll, r.2.length)

end Bindu

namespace AgentAPI

/-- How `AgentAPI.request` classifies an HTTP status before reading the body:
401 throws `AgentAPIError('Authentication required', 401)`, 402 throws
`AgentAPIError('Payment required', 402)`, any other non-2xx throws a generic
`AgentAPIError` carrying the status, otherwise the body is processed. -/
inductive StatusOutcome where
  | authError
  | paymentError
  | httpError (status : Nat)
  | ok
deriving DecidableEq, Repr

/-- The status-classification chain of `AgentAPI.request`. -/
def classifyStatus (status : Nat) : StatusOutcome :=
  if status = 401 then .authError
  else if status = 402 then .paymentError
  else if ¬ Bindu.respOk status then .httpError status
  else .ok

end AgentAPI

namespace Handler

/-- Task states known to the direct agent message handler (its inline
`AgentTask` type has no `auth-required`, `rejected` or `unknown`). -/
inductive TaskStateH where
  | submitted
  | working
  | inputRequired
  | completed
  | failed
  | canceled
deriving DecidableEq, Repr, Fintype

/-- A message or artifact part of the handler: `{kind: 'text', text: string}`
(`kind` kept general so non-text parts can be represented). -/
structure PartH where
  kind : String
  text : String
deriving DecidableEq, Repr

/-- An artifact of the handler's `AgentTask`:
`{kind, parts?: Part[], text?: string}`. -/
structure ArtifactH where
  kind : String
  parts : Option (List PartH)
  text : Option String
deriving DecidableEq, Repr

/-- A history message of the handler's `AgentTask`. -/
structure MsgH where
  role : String
  parts : List PartH
deriving DecidableEq, Repr

/-- The handler's `AgentTask`, restricted to the fields the code reads. -/
structure AgentTask where
  id : String
  state : TaskStateH
  history : List MsgH
  artifacts : List ArtifactH
  metadataError : Option String
deriving DecidableEq, Repr

/-- The per-artifact collection step of `extractTextFromTask`:
`if (artifact.parts) { push every text part's text } else if (artifact.text)
{ push it }` (a present-but-empty `parts` array is truthy and shadows
`text`). -/
def artifactTextPieces (a : ArtifactH) : List String :=
  match a.parts with
  | some ps => ps.filterMap (fun p => if p.kind = "text" ∧ p.text ≠ "" then some p.text else none)
  | none =>
    match a.text with
    | some t => if t ≠ "" then [t] else []
    | none => []

/-- All text pieces collected from a task's artifacts, in artifact order
(empty when the artifacts array is empty, matching the
`task.artifacts.length > 0` guard). -/
def artifactTexts (task : AgentTask) : List String :=
  if task.artifacts ≠ [] then (task.artifacts.map artifactTextPieces).flatten else []

/-- First truthy text part of a history message, if any. -/
def msgFirstText (m : MsgH) : Option String :=
  m.parts.findSome? (fun p => if p.kind = "text" ∧ p.text ≠ "" then some p.text else none)

/-- The history fallback of `extractTextFromTask`: scan from the end, and for
the first agent-authored message that has a truthy text part return that
part's text. -/
def historyFallback (history : List MsgH) : String :=
  (history.reverse.findSome? (fun m =>
    if m.role = "assistant" ∨ m.role = "agent" then msgFirstText m else none)).getD ""

/-- `extractTextFromTask` of the direct agent message handler: artifacts
first (pieces joined with `"\n"`), then the history fallback, else `""`. -/
def extractTextFromTask (task : AgentTask) : String :=
  let textParts := artifactTexts task
  if textParts ≠ [] then String.intercalate "\n" textParts
  else historyFallback task.history

/-- The `MessageUpdate` values the handler yields once a task is actionable. -/
inductive MessageUpdate where
  | stream (token : String)
  | finalAnswer (text : String)
deriving DecidableEq, Repr

/-- The actionable branch of `sendAgentMessage`
(`taskState === 'completed' || taskState === 'input-required'`): yield the
extracted text as one stream token when truthy, then always yield the final
answer carrying `text || ''`.  No error is thrown on empty content. -/
def actionableUpdates (task : AgentTask) : List MessageUpdate :=
  let text := extractTextFromTask task
  (if text ≠ "" then [MessageUpdate.stream text] else []) ++ [MessageUpdate.finalAnswer text]

/-- The per-task branch of `sendAgentMessage`'s polling loop:
completed/input-required → return the updates; failed → throw with the
metadata error detail (`currentTask.metadata?.error || 'Unknown error'`);
canceled → throw; anything else → keep polling. -/
def pollStep4 (task : AgentTask) : Bindu.PollDecision :=
  let taskState := task.state
  if taskState = .completed ∨ taskState = .inputRequired then .ret
  else if taskState = .failed then
    .fail (match task.metadataError with
           | some e => if e ≠ "" then e else "Unknown error"
           | none => "Unknown error")
  else if taskState = .canceled then .cancel
  else .cont

end Handler

namespace Stream

/-- A part of an A2A message or artifact as the converter inspects it
(`part.kind === 'text'` then `part.text`; file and data parts carry no text
and their payloads are never read by the converter). -/
inductive SPart where
  | text (text : String)
  | file
  | data
deriving DecidableEq, Repr

/-- An A2A message as the converter inspects it: role and parts. -/
structure SMessage where
  role : String
  parts : List SPart
deriving DecidableEq, Repr

/-- An A2A artifact, restricted to the fields the converter reads: `kind`,
optional inline `text`, optional `lastChunk` flag, and the optional `parts`
array probed by `'parts' in artifact`. -/
structure SArtifact where
  kind : String
  text : Option String
  lastChunk : Option Bool
  parts : Option (List SPart)
deriving DecidableEq, Repr

/-- A task as carried inside a stream event's `result.task`. -/
structure STask where
  artifacts : Option (List SArtifact)
deriving DecidableEq, Repr

/-- `TaskStatus` carried by a status-update stream event. -/
structure SStatus where
  state : Bindu.TaskState
  message : Option SMessage
deriving DecidableEq, Repr

/-- `params` of a `BinduStreamEvent`. -/
structure SEventParams where
  status : Option SStatus
  artifact : Option SArtifact
  final : Option Bool
deriving DecidableEq, Repr

/-- `result` of a `BinduStreamEvent`. -/
structure SEventResult where
  task : Option STask
deriving DecidableEq, Repr

/-- A parsed `BinduStreamEvent` (the fields `processStreamEvent` reads). -/
structure BinduStreamEvent where
  params : Option SEventParams
  result : Option SEventResult
deriving DecidableEq, Repr

/-- `extractTextFromArtifacts`: for each artifact push its inline text when
`artifact.kind === "text" && artifact.text`, else the truthy texts of its
`parts` array when present; join everything with `""`. -/
def extractTextFromArtifacts (artifacts : Option (List SArtifact)) : String :=
  match artifacts with
  | none => ""
  | some arts =>
    let textParts := (arts.map (fun artifact =>
      if artifact.kind = "text" ∧ artifact.text.getD "" ≠ "" then
        [artifact.text.getD ""]
      else
        match artifact.parts with
        | some parts =>
          parts.filterMap (fun p =>
            match p with
            | .text t => if t ≠ "" then some t else none
            | _ => none)
        | none => [])).flatten
    String.join textParts

/-- One token of the `TextGenerationStreamOutput` shape (the constant
`logprob: 0` and `details: null` fields are omitted). -/
structure StreamToken where
  id : Nat
  text : String
  special : Bool
deriving DecidableEq, Repr

/-- One yielded `TextGenerationStreamOutput`. -/
structure StreamOutput where
  token : StreamToken
  generated : Option String
deriving DecidableEq, Repr

/-- The `{output, nextTokenId, generatedText}` record `processStreamEvent`
returns. -/
structure ProcessedStreamOutput where
  output : StreamOutput
  nextTokenId : Nat
  generatedText : String
deriving DecidableEq, Repr

/-- First `kind === "text"` part of a message, with its (possibly empty)
text. -/
def firstTextPart (parts : List SPart) : Option String :=
  parts.findSome? (fun p => match p with | .text t => some t | _ => none)

/-- The status-update branch of `processStreamEvent`: emit the first text
part of an embedded status message (marking it final, with the aggregate,
when the carried state is `completed`), or an empty final token for a
`completed` status without message text.  Returns `none` when this branch
falls through. -/
def statusOutput (event : BinduStreamEvent) (tokenId : Nat) (currentText : String) :
    Option ProcessedStreamOutput :=
  match event.params with
  | none => none
  | some params =>
    match params.status with
    | none => none
    | some status =>
      match status.message with
      | some msg =>
        match firstTextPart msg.parts with
        | some text =>
          let newText := currentText ++ text
          some { output := { token := { id := tokenId, text := text,
                                        special := status.state = .completed },
                             generated := if status.state = .completed then some newText else none },
                 nextTokenId := tokenId + 1, generatedText := newText }
        | none =>
          if status.state = .completed then
            some { output := { token := { id := tokenId, text := "", special := true },
                               generated := some currentText },
                   nextTokenId := tokenId + 1, generatedText := currentText }
          else none
      | none =>
        if status.state = .completed then
          some { output := { token := { id := tokenId, text := "", special := true },
                             generated := some currentText },
                 nextTokenId := tokenId + 1, generatedText := currentText }
        else none

/-- The artifact-update branch of `processStreamEvent`: a `kind === "text"`
artifact with truthy text is appended in full to the aggregate; the emission
is marked final when `artifact.lastChunk || event.params.final` holds. -/
def artifactOutput (event : BinduStreamEvent) (tokenId : Nat) (currentText : String) :
    Option ProcessedStreamOutput :=
  match event.params with
  | none => none
  | some params =>
    match params.artifact with
    | none => none
    | some artifact =>
      if artifact.kind = "text" ∧ artifact.text.getD "" ≠ "" then
        let text := artifact.text.getD ""
        let newText := currentText ++ text
        let isFinal := artifact.lastChunk.getD false || params.final.getD false
        some { output := { token := { id := tokenId, text := text, special := isFinal },
                           generated := if isFinal then some newText else none },
               nextTokenId := tokenId + 1, generatedText := newText }
      else none

/-- The final-result branch of `processStreamEvent`: when the event carries
`result.task`, extract the task's aggregated artifact text and, if it is
truthy and differs from the aggregate so far, emit only
`text.slice(currentText.length)` with the full text as the aggregate. -/
def resultOutput (event : BinduStreamEvent) (tokenId : Nat) (currentText : String) :
    Option ProcessedStreamOutput :=
  match event.result with
  | none => none
  | some result =>
    match result.task with
    | none => none
    | some task =>
      let text := extractTextFromArtifacts task.artifacts
      if text ≠ "" ∧ text ≠ currentText then
        let newContent := jsSlice text currentText.length
        some { output := { token := { id := tokenId, text := newContent, special := true },
                           generated := some text },
               nextTokenId := tokenId + 1, generatedText := text }
      else none

/-- `processStreamEvent`: the three branches in source order (status update,
artifact update, final result), `none` when no branch emits. -/
def processStreamEvent (event : BinduStreamEvent) (tokenId : Nat) (currentText : String) :
    Option ProcessedStreamOutput :=
  match statusOutput event tokenId currentText with
  | some o => some o
  | none =>
    match artifactOutput event tokenId currentText with
    | some o => some o
    | none => resultOutput event tokenId currentText

/-- The event loop of `binduStreamToTextGenerationStream`: fold
`processStreamEvent` over the parsed events, yielding each produced output
and threading `tokenId`/`generatedText` through. -/
def runEvents : List BinduStreamEvent → Nat → String → List StreamOutput × Nat × String
  | [], tokenId, currentText => ([], tokenId, currentText)
  | e :: rest, tokenId, currentText =>
    match processStreamEvent e tokenId currentText with
    | none => runEvents rest tokenId currentText
    | some p =>
      let r := runEvents rest p.nextTokenId p.generatedText
      (p.output :: r.1, r.2)

/-- Concatenation of the texts of a list of emitted outputs, in emission
order. -/
def concatTexts : List StreamOutput → String
  | [] => ""
  | o :: rest => o.token.text ++ concatTexts rest

/-- One line of the SSE loop in `binduStreamToTextGenerationStream`, with the
`JSON.parse` + catch modelled by a parse function returning `none` on a parse
failure: blank lines, `:` comments, lines without the `data:` prefix, empty
payloads, the `[DONE]` sentinel and unparseable payloads are all skipped
(`none`), a parsed event goes through `processStreamEvent`. -/
def handleLine (parse : String → Option BinduStreamEvent) (tokenId : Nat)
    (currentText : String) (line : String) : Option ProcessedStreamOutput :=
  let trimmed := jsTrim line
  if trimmed = "" then none
  else if trimmed.startsWith ":" then none
  else if trimmed.startsWith "data:" then
    let jsonStr := jsTrim (jsSlice trimmed 5)
    if jsonStr = "" then none
    else if jsonStr = "[DONE]" then none
    else
      match parse jsonStr with
      | none => none
      | some event => processStreamEvent event tokenId currentText
  else none

/-- The SSE line loop: process each complete line in order, yielding outputs
and threading the state exactly as the event loop does. -/
def runLines (parse : String → Option BinduStreamEvent) :
    List String → Nat → String → List StreamOutput × Nat × String
  | [], tokenId, currentText => ([], tokenId, currentText)
  | line :: rest, tokenId, currentText =>
    match handleLine parse tokenId currentText line with
    | none => runLines parse rest tokenId currentText
    | some p =>
      let r := runLines parse rest p.nextTokenId p.generatedText
      (p.output :: r.1, r.2)

/-- State threading of one event in the event loop: unchanged when the event
produces no output. -/
def stepState (e : BinduStreamEvent) (tokenId : Nat) (currentText : String) : Nat × String :=
  match processStreamEvent e tokenId currentText with
  | none => (tokenId, currentText)
  | some p => (p.nextTokenId, p.generatedText)

/-- A final-result event is *consistent* with the text delivered so far when
the aggregate text it carries is empty or extends that text (has it as a
prefix) — the well-behaved case of a server reporting full-so-far
aggregates. -/
def resultTextOk (currentText : String) (e : BinduStreamEvent) : Bool :=
  match e.result with
  | none => true
  | some r =>
    match r.task with
    | none => true
    | some task =>
      let text := extractTextFromArtifacts task.artifacts
      text = "" || currentText.data.isPrefixOf text.data

/-- Every final-result event of a run is consistent with the text delivered
at the point it is processed. -/
def runOk : List BinduStreamEvent → Nat → String → Bool
  | [], _, _ => true
  | e :: rest, tokenId, currentText =>
    resultTextOk currentText e &&
      runOk rest (stepState e tokenId currentText).1 (stepState e tokenId currentText).2

/-- Scenario fixture: an incremental artifact-fragment event with the given
text and `lastChunk` flag. -/
def textArtifactEvent (text : String) (lastChunk : Option Bool) : BinduStreamEvent :=
  { params := some { status := none,
                     artifact := some { kind := "text", text := some text,
                                        lastChunk := lastChunk, parts := none },
                     final := none },
    result := none }

/-- Scenario fixture: a final-result event whose task carries one text
artifact with the given full-so-far text. -/
def taskResultEvent (text : String) : BinduStreamEvent :=
  { params := none,
    result := some { task := some { artifacts := some [{ kind := "text", text := some text,
                                                         lastChunk := none, parts := none }] } } }

/-- Scenario fixture: a `completed` status-update event carrying a message
with one text part. -/
def completedStatusEvent (text : String) : BinduStreamEvent :=
  { params := some { status := some { state := Bindu.TaskState.completed,
                                      message := some { role := "agent",
                                                        parts := [SPart.text text] } },
                     artifact := none, final := none },
    result := none }

/-- A JSON-RPC error object. -/
structure RpcError where
  code : Int
  message : String
deriving DecidableEq, Repr

/-- The `result` object of a non-streaming JSON-RPC response as
`binduToTextGenerationStream` reads it: the task fields plus the
`response`/`message` simple-format fallbacks (field presence = `isSome`). -/
structure RpcResultObj where
  artifacts : Option (List SArtifact)
  history : Option (List SMessage)
  response : Option String
  message : Option String
deriving DecidableEq, Repr

/-- A non-streaming `BinduJsonRpcResponse`. -/
structure BinduJsonRpcResponse where
  error : Option RpcError
  result : Option RpcResultObj
deriving DecidableEq, Repr

/-- First truthy text part of a message
(`part.kind === 'text' && part.text`). -/
def msgTruthyText (m : SMessage) : Option String :=
  m.parts.findSome? (fun p =>
    match p with
    | .text t => if t ≠ "" then some t else none
    | _ => none)

/-- The history fallback of `binduToTextGenerationStream`: last
assistant/agent message with a truthy text part, scanning from the end. -/
def historyText (history : List SMessage) : String :=
  (history.reverse.findSome? (fun m =>
    if m.role = "assistant" ∨ m.role = "agent" then msgTruthyText m else none)).getD ""

/-- `binduToTextGenerationStream`: throw on a JSON-RPC error; otherwise try
artifacts, then history, then the `response` and `message` simple-format
fields; throw `"No text content in Bindu response"` if everything is empty,
else yield one final output carrying the text. -/
def binduToTextGenerationStream (resp : BinduJsonRpcResponse) :
    Except String StreamOutput :=
  match resp.error with
  | some e => .error ("Bindu error " ++ toString e.code ++ ": " ++ e.message)
  | none =>
    let task := resp.result
    let text :=
      match task with
      | some t => if (t.artifacts.getD []).length > 0 then extractTextFromArtifacts t.artifacts else ""
      | none => ""
    let text :=
      if text = "" then
        match task with
        | some t =>
          match t.history with
          | some h => historyText h
          | none => ""
        | none => ""
      else text
    let text :=
      if text = "" then
        match task with
        | some t =>
          match t.response with
          | some r => r
          | none => ""
        | none => ""
      else text
    let text :=
      if text = "" then
        match task with
        | some t =>
          match t.message with
          | some m => m
          | none => ""
        | none => ""
      else text
    if text = "" then .error "No text content in Bindu response"
    else .ok { token := { id := 0, text := text, special := true }, generated := some text }

end Stream

/-! ## Helper lemmas -/

theorem strEmpty_append (s : String) : "" ++ s = s := by cases s; rfl

theorem strAppend_empty (s : String) : s ++ "" = s := by cases s; simp

theorem strAppend_jsSlice_of_isPrefixOf {cur text : String}
    (h : cur.data.isPrefixOf text.data = true) :
    cur ++ jsSlice text cur.length = text := by
  obtain ⟨u, hu⟩ := List.isPrefixOf_iff_prefix.mp h
  cases cur with
  | mk cd =>
    cases text with
    | mk td =>
      have hu2 : cd ++ u = td := hu
      show String.mk (cd ++ (td.drop cd.length)) = String.mk td
      rw [← hu2, List.drop_left]

/-! ## Claims -/

/-- **C7 counterexample.**  In the A2A protocol types module, the task state
`unknown` is a member of none of the three state groups: the classification
lists do not partition that module's `TaskState` (and its terminal list has
no `rejected` entry at all, that state not existing in this enumeration). -/
theorem unknown_state_in_no_group :
    Bindu.TERMINAL_STATES.contains Bindu.TaskState.unknown = false ∧
    Bindu.NON_TERMINAL_STATES.contains Bindu.TaskState.unknown = false ∧
    Bindu.WORKING_STATES.contains Bindu.TaskState.unknown = false := by
  decide

/-- **C7 (amended).**  For the frontend `TaskState`, `isTerminalState` holds
exactly for completed, failed, canceled and rejected, `isNonTerminalState`
exactly for input-required and auth-required, and every state belongs to
exactly one of the three groups (Working = submitted/working).  In the A2A
protocol types module — whose `TaskState` has `unknown` instead of
`rejected` — the terminal list is exactly completed/failed/canceled, the
non-terminal list input-required/auth-required, the working list
submitted/working, and every state other than `unknown` belongs to exactly
one of the three lists. -/
theorem state_classification_partition :
    (∀ s : Agent.TaskState, Agent.isTerminalState s = true ↔
      (s = .completed ∨ s = .failed ∨ s = .canceled ∨ s = .rejected)) ∧
    (∀ s : Agent.TaskState, Agent.isNonTerminalState s = true ↔
      (s = .inputRequired ∨ s = .authRequired)) ∧
    (∀ s : Agent.TaskState,
      (Agent.isTerminalState s = true ∧ Agent.isNonTerminalState s = false
          ∧ ¬(s = .submitted ∨ s = .working)) ∨
      (Agent.isTerminalState s = false ∧ Agent.isNonTerminalState s = true
          ∧ ¬(s = .submitted ∨ s = .working)) ∨
      (Agent.isTerminalState s = false ∧ Agent.isNonTerminalState s = false
          ∧ (s = .submitted ∨ s = .working))) ∧
    (∀ s : Bindu.TaskState, Bindu.TERMINAL_STATES.contains s = true ↔
      (s = .completed ∨ s = .failed ∨ s = .canceled)) ∧
    (∀ s : Bindu.TaskState, Bindu.NON_TERMINAL_STATES.contains s = true ↔
      (s = .inputRequired ∨ s = .authRequired)) ∧
    (∀ s : Bindu.TaskState, Bindu.WORKING_STATES.contains s = true ↔
      (s = .submitted ∨ s = .working)) ∧
    (∀ s : Bindu.TaskState, s ≠ .unknown →
      (Bindu.TERMINAL_STATES.contains s = true ∧ Bindu.NON_TERMINAL_STATES.contains s = false
          ∧ Bindu.WORKING_STATES.contains s = false) ∨
      (Bindu.TERMINAL_STATES.contains s = false ∧ Bindu.NON_TERMINAL_STATES.contains s = true
          ∧ Bindu.WORKING_STATES.contains s = false) ∨
      (Bindu.TERMINAL_STATES.contains s = false ∧ Bindu.NON_TERMINAL_STATES.contains s = false
          ∧ Bindu.WORKING_STATES.contains s = true)) := by
  refine ⟨?_, ?_, ?_, ?_, ?_, ?_, ?_⟩ <;> decide

/-- **C7 witness** for `state_classification_partition`: instantiation at the
concrete states `rejected` (frontend) and `completed` (protocol module). -/
theorem state_classification_partition_witness :
    Agent.isTerminalState Agent.TaskState.rejected = true ∧
    (Bindu.TERMINAL_STATES.contains Bindu.TaskState.completed = true ∧
      Bindu.NON_TERMINAL_STATES.contains Bindu.TaskState.completed = false ∧
      Bindu.WORKING_STATES.contains Bindu.TaskState.completed = false) := by
  constructor
  · exact (state_classification_partition.1 Agent.TaskState.rejected).mpr (by decide)
  · rcases state_classification_partition.2.2.2.2.2.2 Bindu.TaskState.completed (by decide) with h | h | h
    · exact h
    · exact absurd h.2.1 (by decide)
    · exact absurd h.2.2 (by decide)

/-- **C9 counterexample.**  The payment token `"a<NBSP>"` (`a` followed by
U+00A0 no-break space) contains a non-ASCII character, yet `buildHeaders`
attaches the `X-PAYMENT` header for it: JavaScript `trim()` removes the
non-ASCII whitespace before the ASCII test, so the header is sent with value
`"a"` rather than being omitted. -/
theorem nonAscii_payment_token_header_attached :
    asciiOnly ("a" ++ String.mk [Char.ofNat 0xA0]) = false ∧
    ("X-PAYMENT", "a") ∈ Bindu.buildHeaders "" ("a" ++ String.mk [Char.ofNat 0xA0]) := by
  decide

/-- **C9 (amended).**  `buildHeaders` attaches `Authorization: Bearer <token>`
exactly when a bearer token is configured (non-empty), and attaches the
`X-PAYMENT` header — with the trimmed token as value — exactly when a payment
token is configured and its *trimmed form* is pure ASCII; when the trimmed
token contains a non-ASCII character the header is silently omitted: no error
is raised and the headers for the request (including `Content-Type`) are
still produced. -/
theorem buildHeaders_spec :
    ∀ apiKey paymentToken : String,
      ((Bindu.buildHeaders apiKey paymentToken).lookup "Authorization"
        = if apiKey ≠ "" then some ("Bearer " ++ apiKey) else none) ∧
      ((Bindu.buildHeaders apiKey paymentToken).lookup "X-PAYMENT"
        = if paymentToken ≠ "" ∧ asciiOnly (jsTrim paymentToken) = true
          then some (jsTrim paymentToken) else none) ∧
      ((Bindu.buildHeaders apiKey paymentToken).lookup "Content-Type"
        = some "application/json") := by
  intro apiKey paymentToken
  unfold Bindu.buildHeaders
  by_cases hk : apiKey = "" <;> by_cases hp : paymentToken = "" <;>
    by_cases ha : asciiOnly (jsTrim paymentToken) = true <;>
    simp [hk, hp, ha, List.lookup]



/-- **C1.**  Continuity resolution follows the priority rules.  For the chat
store's `sendMessage`: an explicit reply target gives a fresh id referencing
exactly the target; otherwise a previous task in a non-terminal state
(input-required or auth-required) is reused with no references; otherwise an
existing previous task (terminal or working state, or no recorded state)
gives a fresh id referencing the previous task; otherwise (first message) a
fresh id with no references.  The endpoint adapter's
`determineTaskIdAndReferences` follows the same rules for its three cases
(it has no reply-target input). -/
theorem continuity_resolution_rules :
    (∀ freshId replyTarget currentState currentTask, replyTarget ≠ "" →
      Chat.sendMessageContinuity freshId (some replyTarget) currentState currentTask
        = (freshId, [replyTarget])) ∧
    (∀ freshId s prevTask,
      (s = Agent.TaskState.inputRequired ∨ s = Agent.TaskState.authRequired) → prevTask ≠ "" →
      Chat.sendMessageContinuity freshId none (some s) (some prevTask) = (prevTask, [])) ∧
    (∀ freshId s prevTask,
      ¬(s = Agent.TaskState.inputRequired ∨ s = Agent.TaskState.authRequired) → prevTask ≠ "" →
      Chat.sendMessageContinuity freshId none (some s) (some prevTask) = (freshId, [prevTask])) ∧
    (∀ freshId prevTask, prevTask ≠ "" →
      Chat.sendMessageContinuity freshId none none (some prevTask) = (freshId, [prevTask])) ∧
    (∀ freshId currentState,
      Chat.sendMessageContinuity freshId none currentState none = (freshId, [])) ∧
    (∀ freshId lastId s,
      (s = Bindu.TaskState.inputRequired ∨ s = Bindu.TaskState.authRequired) → lastId ≠ "" →
      Bindu.determineTaskIdAndReferences freshId (some lastId) (some s) = (lastId, none)) ∧
    (∀ freshId lastId s,
      ¬(s = Bindu.TaskState.inputRequired ∨ s = Bindu.TaskState.authRequired) → lastId ≠ "" →
      Bindu.determineTaskIdAndReferences freshId (some lastId) (some s)
        = (freshId, some [lastId])) ∧
    (∀ freshId lastId, lastId ≠ "" →
      Bindu.determineTaskIdAndReferences freshId (some lastId) none
        = (freshId, some [lastId])) ∧
    (∀ freshId lastTaskState,
      Bindu.determineTaskIdAndReferences freshId none lastTaskState = (freshId, none)) := by
  refine ⟨?_, ?_, ?_, ?_, ?_, ?_, ?_, ?_, ?_⟩
  · intro freshId r cs ct hr
    simp [Chat.sendMessageContinuity, strOptTruthy, hr]
  · intro freshId s ct hs hct
    rcases hs with h | h <;> subst h <;>
      simp [Chat.sendMessageContinuity, Agent.isNonTerminalState, strOptTruthy, hct]
  · intro freshId s ct hs hct
    cases s <;> simp_all [Chat.sendMessageContinuity, Agent.isNonTerminalState, strOptTruthy]
  · intro freshId ct hct
    simp [Chat.sendMessageContinuity, strOptTruthy, hct]
  · intro freshId cs
    cases cs <;> simp [Chat.sendMessageContinuity, strOptTruthy]
  · intro freshId lastId s hs hid
    rcases hs with h | h <;> subst h <;>
      simp [Bindu.determineTaskIdAndReferences, Bindu.NON_TERMINAL_STATES, strOptTruthy, hid]
  · intro freshId lastId s hs hid
    cases s <;>
      simp_all [Bindu.determineTaskIdAndReferences, Bindu.NON_TERMINAL_STATES, strOptTruthy]
  · intro freshId lastId hid
    simp [Bindu.determineTaskIdAndReferences, strOptTruthy, hid]
  · intro freshId s
    cases s <;> simp [Bindu.determineTaskIdAndReferences, strOptTruthy]

/-- **C1 witness** for `continuity_resolution_rules`: the four chat-store
cases at concrete inputs — reply target, non-terminal reuse, terminal
branch-off and first message. -/
theorem continuity_resolution_rules_witness :
    Chat.sendMessageContinuity "f" (some "r") none (some "t") = ("f", ["r"]) ∧
    Chat.sendMessageContinuity "f" none (some Agent.TaskState.inputRequired) (some "t")
      = ("t", []) ∧
    Chat.sendMessageContinuity "f" none (some Agent.TaskState.completed) (some "t")
      = ("f", ["t"]) ∧
    Chat.sendMessageContinuity "f" none none none = ("f", []) ∧
    Bindu.determineTaskIdAndReferences "f" (some "t") (some Bindu.TaskState.completed)
      = ("f", some ["t"]) :=
  ⟨continuity_resolution_rules.1 "f" "r" none (some "t") (by decide),
   continuity_resolution_rules.2.1 "f" Agent.TaskState.inputRequired "t"
     (Or.inl rfl) (by decide),
   continuity_resolution_rules.2.2.1 "f" Agent.TaskState.completed "t"
     (by decide) (by decide),
   continuity_resolution_rules.2.2.2.2.1 "f" none,
   continuity_resolution_rules.2.2.2.2.2.2.1 "f" "t" Bindu.TaskState.completed
     (by decide) (by decide)⟩

/-- **C4 counterexample.**  A fetched task in state `auth-required` does not
cause the endpoint adapter's loop to continue polling: the non-terminal
branch returns the task (stop polling).  At the loop level, with the server
answering `auth-required` on every probe, polling stops at the very first
attempt with the task returned instead of continuing. -/
theorem auth_required_stops_polling :
    Bindu.pollStep ⟨"t1", Bindu.TaskState.authRequired, none, none, none⟩
      = Bindu.PollDecision.ret ∧
    Bindu.pollStep ⟨"t1", Bindu.TaskState.authRequired, none, none, none⟩
      ≠ Bindu.PollDecision.cont ∧
    Bindu.pollLoop (fun _ => Bindu.PollResp.task ⟨"t1", Bindu.TaskState.authRequired, none, none, none⟩)
        Bindu.maxAttempts
      = (Except.ok ⟨"t1", Bindu.TaskState.authRequired, none, none, none⟩, [0]) := by
  refine ⟨by decide, by decide, rfl⟩

/-- **C4 (amended).**  The polling decision is determined solely by the
fetched task's state.  Endpoint adapter: `completed`/`input-required` — and
also the non-terminal `auth-required` — return the task (stop polling);
`failed` throws the task-failed error carrying the metadata error detail;
`canceled` throws the task-canceled error; only the Working group
(`submitted`, `working`) and `unknown` continue polling.  Direct handler
(whose state union has no `auth-required`): `completed`/`input-required`
return, `failed`/`canceled` throw, `submitted`/`working` continue. -/
theorem poll_decision_by_state :
    (∀ t u : Bindu.Task, t.state = u.state →
      (Bindu.pollStep t).kind = (Bindu.pollStep u).kind) ∧
    (∀ t : Bindu.Task, (Bindu.pollStep t).kind = .ret ↔
      (t.state = .completed ∨ t.state = .inputRequired ∨ t.state = .authRequired)) ∧
    (∀ t : Bindu.Task, t.state = .failed →
      Bindu.pollStep t = .fail (Bindu.failedErrorDetail t)) ∧
    (∀ t : Bindu.Task, (Bindu.pollStep t).kind = .fail ↔ t.state = .failed) ∧
    (∀ t : Bindu.Task, Bindu.pollStep t = .cancel ↔ t.state = .canceled) ∧
    (∀ t : Bindu.Task, Bindu.pollStep t = .cont ↔
      (t.state = .submitted ∨ t.state = .working ∨ t.state = .unknown)) ∧
    (∀ t : Handler.AgentTask, Handler.pollStep4 t = .ret ↔
      (t.state = .completed ∨ t.state = .inputRequired)) ∧
    (∀ t : Handler.AgentTask, (Handler.pollStep4 t).kind = .fail ↔ t.state = .failed) ∧
    (∀ t : Handler.AgentTask, Handler.pollStep4 t = .cancel ↔ t.state = .canceled) ∧
    (∀ t : Handler.AgentTask, Handler.pollStep4 t = .cont ↔
      (t.state = .submitted ∨ t.state = .working)) := by
  have hkind : ∀ t : Bindu.Task, (Bindu.pollStep t).kind
      = (Bindu.pollStep ⟨"", t.state, none, none, none⟩).kind := by
    intro t
    cases h : t.state <;>
      simp [Bindu.pollStep, h, Bindu.TERMINAL_STATES, Bindu.NON_TERMINAL_STATES,
        Bindu.PollDecision.kind]
  refine ⟨?_, ?_, ?_, ?_, ?_, ?_, ?_, ?_, ?_, ?_⟩
  · intro t u h
    rw [hkind t, hkind u, h]
  · intro t
    cases h : t.state <;>
      simp [Bindu.pollStep, h, Bindu.TERMINAL_STATES, Bindu.NON_TERMINAL_STATES,
        Bindu.PollDecision.kind]
  · intro t h
    simp [Bindu.pollStep, h, Bindu.TERMINAL_STATES, Bindu.NON_TERMINAL_STATES]
  · intro t
    cases h : t.state <;>
      simp [Bindu.pollStep, h, Bindu.TERMINAL_STATES, Bindu.NON_TERMINAL_STATES,
        Bindu.PollDecision.kind]
  · intro t
    cases h : t.state <;>
      simp [Bindu.pollStep, h, Bindu.TERMINAL_STATES, Bindu.NON_TERMINAL_STATES]
  · intro t
    cases h : t.state <;>
      simp [Bindu.pollStep, h, Bindu.TERMINAL_STATES, Bindu.NON_TERMINAL_STATES]
  · intro t
    cases h : t.state <;> simp [Handler.pollStep4, h]
  · intro t
    cases h : t.state <;> simp [Handler.pollStep4, h, Bindu.PollDecision.kind]
  · intro t
    cases h : t.state <;> simp [Handler.pollStep4, h]
  · intro t
    cases h : t.state <;> simp [Handler.pollStep4, h]

/-- **C4 witness** for `poll_decision_by_state`: two concrete tasks sharing
the state `working` yield the same decision kind, and a concrete completed
task is classified as returnable. -/
theorem poll_decision_by_state_witness :
    (Bindu.pollStep ⟨"a", Bindu.TaskState.working, none, none, none⟩).kind
      = (Bindu.pollStep ⟨"b", Bindu.TaskState.working, some "x", none, some "m"⟩).kind ∧
    (Bindu.pollStep ⟨"a", Bindu.TaskState.completed, none, none, none⟩).kind
      = Bindu.DecisionKind.ret :=
  ⟨poll_decision_by_state.1 ⟨"a", Bindu.TaskState.working, none, none, none⟩
      ⟨"b", Bindu.TaskState.working, some "x", none, some "m"⟩ rfl,
   (poll_decision_by_state.2.1 ⟨"a", Bindu.TaskState.completed, none, none, none⟩).mpr
      (Or.inl rfl)⟩

/-- Helper for C5: from any positive attempt number, a run in which every
response keeps the loop going exhausts the remaining budget, waiting
`pollInterval` before each of the remaining attempts, and throws the
poll-timeout error. -/
theorem pollLoopFrom_all_continue (resps : Nat → Bindu.PollResp)
    (hc : ∀ i, Bindu.continuesPolling (resps i) = true) :
    ∀ remaining attempt, 0 < attempt →
      Bindu.pollLoopFrom resps attempt remaining
        = (Except.error Bindu.PollError.timeout,
           List.replicate remaining Bindu.pollInterval) := by
  intro remaining
  induction remaining with
  | zero => intro attempt _; simp [Bindu.pollLoopFrom]
  | succ n ih =>
    intro attempt hpos
    have h := hc attempt
    unfold Bindu.pollLoopFrom
    cases hr : resps attempt with
    | fetchFail =>
      simp only []
      rw [ih (attempt + 1) (by omega)]
      simp [hpos, List.replicate_succ]
    | rpcError msg => rw [hr] at h; simp [Bindu.continuesPolling] at h
    | noTask =>
      simp only []
      rw [ih (attempt + 1) (by omega)]
      simp [hpos, List.replicate_succ]
    | task t =>
      rw [hr] at h
      simp only [Bindu.continuesPolling] at h
      have hcont : Bindu.pollStep t = .cont := by
        cases hs : t.state <;> rw [hs] at h <;>
          simp [Bindu.WORKING_STATES, Bindu.pollStep, hs, Bindu.TERMINAL_STATES,
            Bindu.NON_TERMINAL_STATES] at h ⊢
      simp only [hcont]
      rw [ih (attempt + 1) (by omega)]
      simp [hpos, List.replicate_succ]

/-- Helper for C5: starting at attempt 0 with a positive budget, the first
attempt fires with no wait and the run then exhausts the budget and throws
the poll-timeout error. -/
theorem pollLoop_all_continue (resps : Nat → Bindu.PollResp)
    (hc : ∀ i, Bindu.continuesPolling (resps i) = true) :
    ∀ n, Bindu.pollLoop resps (n + 1)
      = (Except.error Bindu.PollError.timeout,
         0 :: List.replicate n Bindu.pollInterval) := by
  intro n
  have h := hc 0
  unfold Bindu.pollLoop Bindu.pollLoopFrom
  cases hr : resps 0 with
  | fetchFail =>
    simp only []
    rw [pollLoopFrom_all_continue resps hc n 1 (by omega)]
    simp
  | rpcError msg => rw [hr] at h; simp [Bindu.continuesPolling] at h
  | noTask =>
    simp only []
    rw [pollLoopFrom_all_continue resps hc n 1 (by omega)]
    simp
  | task t =>
    rw [hr] at h
    simp only [Bindu.continuesPolling] at h
    have hcont : Bindu.pollStep t = .cont := by
      cases hs : t.state <;> rw [hs] at h <;>
        simp [Bindu.WORKING_STATES, Bindu.pollStep, hs, Bindu.TERMINAL_STATES,
          Bindu.NON_TERMINAL_STATES] at h ⊢
    simp only [hcont]
    rw [pollLoopFrom_all_continue resps hc n 1 (by omega)]
    simp

set_option maxRecDepth 4000 in
/-- **C5.**  When every `tasks/get` round trip keeps the loop going — the
server reports a Working-group state (`submitted`/`working`), or the fetch
transiently fails (non-2xx), or the body carries no usable task (each of
these swallowed, consuming an attempt rather than aborting) — the polling
loop performs exactly its attempt budget of attempts, the first with no wait
(fired immediately after submission) and every later one preceded by a fixed
`pollInterval` wait, and then throws the poll-timeout error.  The defaults
are a 1000 ms interval and 300 attempts, and the endpoint pipeline after a
successful submission uses exactly that budget before throwing
poll-timeout. -/
theorem poll_timeout_exact_attempts :
    ∀ (resps : Nat → Bindu.PollResp) (budget : Nat),
      (∀ i, Bindu.continuesPolling (resps i) = true) → 0 < budget →
      (Bindu.pollLoop resps budget
        = (Except.error Bindu.PollError.timeout,
           0 :: List.replicate (budget - 1) Bindu.pollInterval) ∧
       (Bindu.pollLoop resps budget).2.length = budget ∧
       Bindu.pollInterval = 1000 ∧ Bindu.maxAttempts = 300 ∧
       (∀ send : Bindu.SendResp, ∀ t : Bindu.Task,
          send.status = 200 → send.rpcError = none → send.task = some t → t.id ≠ "" →
          Bindu.endpointBindu send resps
            = (Except.error (Bindu.EndpointError.poll Bindu.PollError.timeout), 300))) := by
  intro resps budget hc hpos
  obtain ⟨n, rfl⟩ : ∃ n, budget = n + 1 := ⟨budget - 1, by omega⟩
  have hmain := pollLoop_all_continue resps hc n
  refine ⟨by simpa using hmain, by rw [hmain]; simp, rfl, rfl, ?_⟩
  intro send t hs he ht hid
  unfold Bindu.endpointBindu
  rw [hs, he, ht]
  have hA : Bindu.pollLoop resps Bindu.maxAttempts
      = (Except.error Bindu.PollError.timeout, 0 :: List.replicate 299 Bindu.pollInterval) :=
    pollLoop_all_continue resps hc 299
  simp [hid, Bindu.respOk, hA, Except.mapError]

/-- **C5 witness** for `poll_timeout_exact_attempts`: a server whose fetches
always transiently fail, with an attempt budget of 2 — both attempts are
consumed (the first with no wait, the second after one interval) and the
poll-timeout error is thrown. -/
theorem poll_timeout_exact_attempts_witness :
    Bindu.pollLoop (fun _ => Bindu.PollResp.fetchFail) 2
      = (Except.error Bindu.PollError.timeout, [0, Bindu.pollInterval]) := by
  have h := (poll_timeout_exact_attempts (fun _ => Bindu.PollResp.fetchFail) 2
    (fun _ => rfl) (by omega)).1
  simpa using h

/-- **C6.**  A `message/send` transport response with HTTP status 402 makes
the submit operation reject with the payment-required error before any
`tasks/get` attempt is performed (the poll counter of the pipeline is 0, for
every possible poll behaviour — in particular the submission is not retried:
the pipeline issues its single send and stops).  The frontend transport
(`AgentAPI.request`) classifies status 402 the same way, throwing its
payment-required error before reading the body. -/
theorem payment_required_rejects_without_poll :
    ∀ (send : Bindu.SendResp) (resps : Nat → Bindu.PollResp),
      send.status = 402 →
      (Bindu.endpointBindu send resps
         = (Except.error Bindu.EndpointError.paymentRequired, 0) ∧
       AgentAPI.classifyStatus 402 = AgentAPI.StatusOutcome.paymentError) := by
  intro send resps hs
  constructor
  · unfold Bindu.endpointBindu
    rw [hs]
    simp
  · rfl

/-- **C6 witness** for `payment_required_rejects_without_poll`: a concrete
402 send response (with a poll stream that would report completion if it
were ever consulted) still rejects with the payment-required error and zero
poll attempts. -/
theorem payment_required_rejects_without_poll_witness :
    Bindu.endpointBindu ⟨402, none, none⟩
        (fun _ => Bindu.PollResp.task ⟨"t", Bindu.TaskState.completed, none, none, none⟩)
      = (Except.error Bindu.EndpointError.paymentRequired, 0) :=
  (payment_required_rejects_without_poll ⟨402, none, none⟩
    (fun _ => Bindu.PollResp.task ⟨"t", Bindu.TaskState.completed, none, none, none⟩) rfl).1

namespace Stream

/-- Status-update emissions append their token to the aggregate, and carry
either no aggregate or exactly the new aggregate. -/
theorem statusOutput_append {e : BinduStreamEvent} {tid : Nat} {cur : String}
    {p : ProcessedStreamOutput} (h : statusOutput e tid cur = some p) :
    p.generatedText = cur ++ p.output.token.text ∧
    (p.output.generated = none ∨ p.output.generated = some p.generatedText) := by
  unfold statusOutput at h
  split at h
  · exact absurd h (by simp)
  · split at h
    · exact absurd h (by simp)
    · split at h
      · split at h
        · rename_i a params hp b status hs c msg hm d text hf
          injection h with h; subst h
          constructor
          · rfl
          · by_cases hc : status.state = Bindu.TaskState.completed <;> simp [hc]
        · split at h
          · injection h with h; subst h
            exact ⟨(strAppend_empty cur).symm, Or.inr rfl⟩
          · exact absurd h (by simp)
      · split at h
        · injection h with h; subst h
          exact ⟨(strAppend_empty cur).symm, Or.inr rfl⟩
        · exact absurd h (by simp)

/-- Artifact-update emissions append their token (the full fragment text) to
the aggregate, and carry either no aggregate or exactly the new aggregate. -/
theorem artifactOutput_append {e : BinduStreamEvent} {tid : Nat} {cur : String}
    {p : ProcessedStreamOutput} (h : artifactOutput e tid cur = some p) :
    p.generatedText = cur ++ p.output.token.text ∧
    (p.output.generated = none ∨ p.output.generated = some p.generatedText) := by
  unfold artifactOutput at h
  split at h
  · exact absurd h (by simp)
  · split at h
    · exact absurd h (by simp)
    · split at h
      · rename_i a params hp b artifact ha hk
        injection h with h; subst h
        constructor
        · rfl
        · by_cases hf : (artifact.lastChunk.getD false || params.final.getD false) = true <;>
            simp [hf]
      · exact absurd h (by simp)

/-- A final-result emission always carries exactly the new aggregate. -/
theorem resultOutput_generated {e : BinduStreamEvent} {tid : Nat} {cur : String}
    {p : ProcessedStreamOutput} (h : resultOutput e tid cur = some p) :
    p.output.generated = some p.generatedText := by
  unfold resultOutput at h
  split at h
  · exact absurd h (by simp)
  · split at h
    · exact absurd h (by simp)
    · simp only [] at h
      split at h
      · injection h with h; subst h; rfl
      · exact absurd h (by simp)

/-- For a final-result event consistent with the delivered text, the emitted
suffix token extends the aggregate exactly to the reported text. -/
theorem resultOutput_append {e : BinduStreamEvent} {tid : Nat} {cur : String}
    {p : ProcessedStreamOutput} (hok : resultTextOk cur e = true)
    (h : resultOutput e tid cur = some p) :
    p.generatedText = cur ++ p.output.token.text ∧
    p.output.generated = some p.generatedText := by
  unfold resultOutput at h
  split at h
  · exact absurd h (by simp)
  · rename_i r hr
    split at h
    · exact absurd h (by simp)
    · rename_i task ht
      have hok2 : extractTextFromArtifacts task.artifacts = "" ∨
          cur.data.isPrefixOf (extractTextFromArtifacts task.artifacts).data = true := by
        unfold resultTextOk at hok
        rw [hr] at hok
        simp only [Option.some.injEq] at hok
        rw [ht] at hok
        simpa using hok
      simp only [] at h
      split at h
      · rename_i hcond
        injection h with h; subst h
        refine ⟨?_, rfl⟩
        rcases hok2 with hempty | hpre
        · exact absurd hempty hcond.1
        · exact (strAppend_jsSlice_of_isPrefixOf hpre).symm
      · exact absurd h (by simp)

/-- An emission of `processStreamEvent` carries either no aggregate or
exactly the new aggregate (unconditionally). -/
theorem processStreamEvent_generated {e : BinduStreamEvent} {tid : Nat} {cur : String}
    {p : ProcessedStreamOutput} (h : processStreamEvent e tid cur = some p) :
    p.output.generated = none ∨ p.output.generated = some p.generatedText := by
  unfold processStreamEvent at h
  split at h
  · rename_i o ho
    injection h with h; subst h
    exact (statusOutput_append ho).2
  · rename_i ho
    split at h
    · rename_i o ha
      injection h with h; subst h
      exact (artifactOutput_append ha).2
    · exact Or.inr (resultOutput_generated h)

/-- For an event whose final-result field (if any) is consistent with the
delivered text, every emission appends its token to the aggregate. -/
theorem processStreamEvent_append {e : BinduStreamEvent} {tid : Nat} {cur : String}
    {p : ProcessedStreamOutput} (hok : resultTextOk cur e = true)
    (h : processStreamEvent e tid cur = some p) :
    p.generatedText = cur ++ p.output.token.text := by
  unfold processStreamEvent at h
  split at h
  · rename_i o ho
    injection h with h; subst h
    exact (statusOutput_append ho).1
  · rename_i ho
    split at h
    · rename_i o ha
      injection h with h; subst h
      exact (artifactOutput_append ha).1
    · exact (resultOutput_append hok h).1

/-- A run that emits no outputs leaves the aggregate unchanged. -/
theorem runEvents_nil_out :
    ∀ (evs : List BinduStreamEvent) (tid : Nat) (cur : String),
      (runEvents evs tid cur).1 = [] → (runEvents evs tid cur).2.2 = cur := by
  intro evs
  induction evs with
  | nil => intro tid cur _; rfl
  | cons e rest ih =>
    intro tid cur h
    unfold runEvents at h ⊢
    cases hp : processStreamEvent e tid cur with
    | none =>
      simp only [hp] at h ⊢
      exact ih tid cur h
    | some p =>
      simp only [hp] at h
      exact absurd h (by simp)

/-- Main invariant: on a consistent run, the final aggregate equals the
starting text followed by the concatenation of all emitted tokens. -/
theorem runEvents_concat :
    ∀ (evs : List BinduStreamEvent) (tid : Nat) (cur : String),
      runOk evs tid cur = true →
      (runEvents evs tid cur).2.2 = cur ++ concatTexts (runEvents evs tid cur).1 := by
  intro evs
  induction evs with
  | nil =>
    intro tid cur _
    simp [runEvents, concatTexts, strAppend_empty]
  | cons e rest ih =>
    intro tid cur hok
    unfold runOk at hok
    rw [Bool.and_eq_true] at hok
    obtain ⟨h1, h2⟩ := hok
    unfold runEvents
    cases hp : processStreamEvent e tid cur with
    | none =>
      simp only [hp]
      have hs : stepState e tid cur = (tid, cur) := by simp [stepState, hp]
      rw [hs] at h2
      exact ih tid cur h2
    | some p =>
      simp only [hp]
      have hs : stepState e tid cur = (p.nextTokenId, p.generatedText) := by
        simp [stepState, hp]
      rw [hs] at h2
      have happ := processStreamEvent_append h1 hp
      have hrec := ih p.nextTokenId p.generatedText h2
      simp only [concatTexts]
      rw [hrec, happ, String.append_assoc]

/-- On any run, the last emitted output carries either no aggregate or
exactly the final aggregate of the run. -/
theorem runEvents_last_generated :
    ∀ (evs : List BinduStreamEvent) (tid : Nat) (cur : String) (o : StreamOutput),
      (runEvents evs tid cur).1.getLast? = some o →
      o.generated = none ∨ o.generated = some (runEvents evs tid cur).2.2 := by
  intro evs
  induction evs with
  | nil => intro tid cur o h; simp [runEvents] at h
  | cons e rest ih =>
    intro tid cur o h
    unfold runEvents at h ⊢
    cases hp : processStreamEvent e tid cur with
    | none =>
      simp only [hp] at h ⊢
      exact ih tid cur o h
    | some p =>
      simp only [hp] at h ⊢
      cases hout : (runEvents rest p.nextTokenId p.generatedText).1 with
      | nil =>
        rw [hout] at h
        simp only [List.getLast?_singleton, Option.some.injEq] at h
        subst h
        have hgen := runEvents_nil_out rest p.nextTokenId p.generatedText hout
        rw [hgen]
        exact processStreamEvent_generated hp
      | cons o2 os =>
        rw [hout] at h
        rw [List.getLast?_cons_cons] at h
        rw [← hout] at h
        exact ih p.nextTokenId p.generatedText o h

end Stream

/-- **C3 counterexample.**  The event sequence: artifact fragment `"Hel"`,
then a final task-result event whose aggregate artifact text is `"ab"` (not
an extension of the delivered text).  Iteration completes normally and ends
in a final marker (`special`, carrying aggregate `"ab"`), but the
concatenation of the emitted tokens is `"Hel"`, which differs from the final
aggregate `"ab"`. -/
theorem roundtrip_concatenation_violated :
    Stream.concatTexts
        (Stream.runEvents [Stream.textArtifactEvent "Hel" none, Stream.taskResultEvent "ab"]
          0 "").1 = "Hel" ∧
    (Stream.runEvents [Stream.textArtifactEvent "Hel" none, Stream.taskResultEvent "ab"]
        0 "").1.getLast?
      = some { token := { id := 1, text := "", special := true }, generated := some "ab" } ∧
    ("Hel" : String) ≠ "ab" := by
  exact ⟨by decide, by decide, by decide⟩

/-- **C3 (amended).**  For every incremental event sequence whose
final-result events are consistent with the text already delivered (each
reported aggregate is empty or extends it — in particular for any sequence
with no final-result event), the concatenation of all emitted token texts,
in emission order, equals the final aggregated text: it equals the
reconstructor's accumulated text, and whatever aggregate the last emitted
output reports (the terminal/final marker ending the sequence) is exactly
that concatenation. -/
theorem roundtrip_concatenation_for_consistent_runs :
    ∀ evs : List Stream.BinduStreamEvent,
      Stream.runOk evs 0 "" = true →
      (Stream.concatTexts (Stream.runEvents evs 0 "").1 = (Stream.runEvents evs 0 "").2.2 ∧
       ∀ o g, (Stream.runEvents evs 0 "").1.getLast? = some o → o.generated = some g →
         g = Stream.concatTexts (Stream.runEvents evs 0 "").1) := by
  intro evs hok
  have hc := Stream.runEvents_concat evs 0 "" hok
  rw [strEmpty_append] at hc
  refine ⟨hc.symm, ?_⟩
  intro o g hlast hg
  rcases Stream.runEvents_last_generated evs 0 "" o hlast with hnone | hsome
  · rw [hnone] at hg; cases hg
  · rw [hsome] at hg
    injection hg with hg
    rw [← hg, hc]

/-- **C3 witness** for `roundtrip_concatenation_for_consistent_runs`: a
completed status event carrying `"Hi!"` — the run is consistent, and the
concatenated tokens equal the final aggregate. -/
theorem roundtrip_concatenation_for_consistent_runs_witness :
    Stream.runOk [Stream.completedStatusEvent "Hi!"] 0 "" = true ∧
    Stream.concatTexts (Stream.runEvents [Stream.completedStatusEvent "Hi!"] 0 "").1
      = (Stream.runEvents [Stream.completedStatusEvent "Hi!"] 0 "").2.2 :=
  ⟨by decide,
   (roundtrip_concatenation_for_consistent_runs [Stream.completedStatusEvent "Hi!"]
     (by decide)).1⟩

/-- **C2 counterexample.**  Feeding the reconstructor the artifact fragments
`"Hel"` then `"Hello"` (full-so-far) with `lastChunk = true` as artifact
events does *not* emit only the suffix: the artifact branch appends the full
fragment, so it emits `"Hel"` then the full `"Hello"` again, and the final
marker carries the duplicated aggregate `"HelHello"`, not `"Hello"`. -/
theorem artifact_repeat_not_deduplicated :
    ((Stream.runEvents
        [Stream.textArtifactEvent "Hel" none, Stream.textArtifactEvent "Hello" (some true)]
        0 "").1.map (fun o => o.token.text) = ["Hel", "Hello"]) ∧
    (Stream.runEvents
        [Stream.textArtifactEvent "Hel" none, Stream.textArtifactEvent "Hello" (some true)]
        0 "").2.2 = "HelHello" ∧
    (["Hel", "Hello"] ≠ ["Hel", "lo"]) ∧ ("HelHello" : String) ≠ "Hello" := by
  exact ⟨by decide, by decide, by decide, by decide⟩

/-- **C2 (amended).**  The suffix-only idempotent handling applies to
final-result events (`result.task`), not to artifact-fragment events: for
the fragment `"Hel"` delivered as an artifact event followed by the
full-so-far text `"Hello"` delivered as a final task-result event, the
reconstructor emits token `"Hel"` and then only the suffix `"lo"`, with the
final marker carrying aggregated text `"Hello"`; an artifact-fragment event
repeating delivered text is appended in full instead. -/
theorem suffix_dedup_on_final_result :
    ((Stream.runEvents
        [Stream.textArtifactEvent "Hel" none, Stream.taskResultEvent "Hello"]
        0 "").1.map (fun o => o.token.text) = ["Hel", "lo"]) ∧
    ((Stream.runEvents
        [Stream.textArtifactEvent "Hel" none, Stream.taskResultEvent "Hello"]
        0 "").1.getLast?
      = some { token := { id := 1, text := "lo", special := true },
               generated := some "Hello" }) ∧
    (Stream.runEvents
        [Stream.textArtifactEvent "Hel" none, Stream.taskResultEvent "Hello"]
        0 "").2.2 = "Hello" := by
  exact ⟨by decide, by decide, by decide⟩

/-- **C10.**  In the SSE reconstructor, a line that is blank after trimming,
or is a `:` comment, or lacks the `data:` prefix, or whose `data:` payload
is empty or the `[DONE]` sentinel, or whose payload fails JSON parsing
(modelled by the parse function returning `none`, as the caught
`JSON.parse` exception), is skipped: no output is produced, the state is
unchanged, and the line loop continues with the subsequent lines —
processing is total, never aborting the generator. -/
theorem malformed_sse_line_skipped :
    ∀ (parse : String → Option Stream.BinduStreamEvent) (tokenId : Nat)
      (currentText line : String),
      (jsTrim line = "" ∨ (jsTrim line).startsWith ":" = true ∨
       (jsTrim line).startsWith "data:" = false ∨
       jsTrim (jsSlice (jsTrim line) 5) = "" ∨
       jsTrim (jsSlice (jsTrim line) 5) = "[DONE]" ∨
       parse (jsTrim (jsSlice (jsTrim line) 5)) = none) →
      (Stream.handleLine parse tokenId currentText line = none ∧
       ∀ rest, Stream.runLines parse (line :: rest) tokenId currentText
             = Stream.runLines parse rest tokenId currentText) := by
  intro parse tokenId currentText line hyp
  have hnone : Stream.handleLine parse tokenId currentText line = none := by
    unfold Stream.handleLine
    rcases hyp with h | h | h | h | h | h <;> simp [h]
  refine ⟨hnone, ?_⟩
  intro rest
  conv_lhs => rw [Stream.runLines]
  rw [hnone]

/-- **C10 witness** for `malformed_sse_line_skipped`: a `data:` line whose
payload fails to parse is skipped without output. -/
theorem malformed_sse_line_skipped_witness :
    Stream.handleLine (fun _ => none) 0 "" "data: bad json" = none :=
  (malformed_sse_line_skipped (fun _ => none) 0 "" "data: bad json"
    (Or.inr (Or.inr (Or.inr (Or.inr (Or.inr rfl)))))).1

/-- **C8 counterexample.**  In the direct agent message handler, a completed
task with no artifacts and no history extracts the empty string, and the
actionable branch does *not* fail: it yields a final answer carrying `''`
(no stream token, no NoContent error). -/
theorem empty_completed_task_yields_empty_final_answer :
    Handler.extractTextFromTask ⟨"t1", Handler.TaskStateH.completed, [], [], none⟩ = "" ∧
    Handler.actionableUpdates ⟨"t1", Handler.TaskStateH.completed, [], [], none⟩
      = [Handler.MessageUpdate.finalAnswer ""] ∧
    Handler.pollStep4 ⟨"t1", Handler.TaskStateH.completed, [], [], none⟩
      = Bindu.PollDecision.ret := by
  exact ⟨by decide, by decide, by decide⟩

/-- **C8 (amended).**  Text extraction prefers artifacts: when the artifacts
yield any text pieces, the handler's result is those pieces joined in
artifact order and is independent of the history; only when the artifacts
yield nothing does it fall back to the last agent-authored message in
history (scanning from the end, first text part wins).  When everything is
empty, the two implementations diverge: the RPC-response converter fails
with the no-content error (after additionally trying the `response`/`message`
simple-format fields), while the direct handler yields an empty final answer
without failing.  When the artifacts yield text, the converter succeeds with
exactly that text. -/
theorem text_extraction_priority :
    (∀ (t : Handler.AgentTask) (h2 : List Handler.MsgH),
      Handler.artifactTexts t ≠ [] →
      Handler.extractTextFromTask t = String.intercalate "\n" (Handler.artifactTexts t) ∧
      Handler.extractTextFromTask t
        = Handler.extractTextFromTask ⟨t.id, t.state, h2, t.artifacts, t.metadataError⟩) ∧
    (∀ t : Handler.AgentTask, Handler.artifactTexts t = [] →
      Handler.extractTextFromTask t = Handler.historyFallback t.history) ∧
    (∀ r : Stream.RpcResultObj,
      Stream.extractTextFromArtifacts r.artifacts = "" →
      (match r.history with | some h => Stream.historyText h | none => "") = "" →
      r.response = none → r.message = none →
      Stream.binduToTextGenerationStream ⟨none, some r⟩
        = Except.error "No text content in Bindu response") ∧
    (∀ t : Handler.AgentTask, Handler.extractTextFromTask t = "" →
      Handler.actionableUpdates t = [Handler.MessageUpdate.finalAnswer ""]) ∧
    (∀ r : Stream.RpcResultObj,
      Stream.extractTextFromArtifacts r.artifacts ≠ "" →
      (r.artifacts.getD []).length > 0 →
      Stream.binduToTextGenerationStream ⟨none, some r⟩
        = Except.ok ⟨⟨0, Stream.extractTextFromArtifacts r.artifacts, true⟩,
                     some (Stream.extractTextFromArtifacts r.artifacts)⟩) := by
  refine ⟨?_, ?_, ?_, ?_, ?_⟩
  · intro t h2 hne
    constructor
    · unfold Handler.extractTextFromTask
      rw [if_pos hne]
    · unfold Handler.extractTextFromTask
      have harts : Handler.artifactTexts ⟨t.id, t.state, h2, t.artifacts, t.metadataError⟩
          = Handler.artifactTexts t := rfl
      rw [harts, if_pos hne, if_pos hne]
  · intro t h
    unfold Handler.extractTextFromTask
    rw [h]
    simp
  · intro r h1 h2 h3 h4
    unfold Stream.binduToTextGenerationStream
    simp only [h1, h2, h3, h4, ite_self]
    split <;> simp_all
  · intro t h
    unfold Handler.actionableUpdates
    rw [h]
    simp
  · intro r h1 h2
    unfold Stream.binduToTextGenerationStream
    simp only []
    rw [if_pos h2]
    simp [h1]

/-- **C8 witness** for `text_extraction_priority`: a task with one text
artifact extracts that text regardless of history, and an empty result
object makes the converter fail with the no-content error. -/
theorem text_extraction_priority_witness :
    Handler.extractTextFromTask
        ⟨"t", Handler.TaskStateH.completed, [],
         [⟨"text", none, some "Hi there"⟩], none⟩ = "Hi there" ∧
    Stream.binduToTextGenerationStream ⟨none, some ⟨none, none, none, none⟩⟩
      = Except.error "No text content in Bindu response" := by
  constructor
  · have h := (text_extraction_priority.1
      ⟨"t", Handler.TaskStateH.completed, [], [⟨"text", none, some "Hi there"⟩], none⟩
      [] (by decide)).1
    rw [h]
    decide
  · exact text_extraction_priority.2.2.1 ⟨none, none, none, none⟩ (by decide) (by decide)
      rfl rfl
